import Mathlib

/-!
Verification of the mlcast source-data validator's report model and checks,
as a shallow embedding of the Python sources in Lean 4.

Conventions used throughout:
* Python strings are `String`; dynamically typed attribute values are
  `AttrVal` (string or int) where a non-string value matters.
* Python code that can raise is embedded as `Except String _`, where
  `.error msg` stands for the raised exception.
* Python dicts are association lists (`List (k × v)`, first binding wins),
  preserving insertion order.
-/

set_option autoImplicit false

namespace Mlcast

/-! ## Report model (`specs/base.py`) -/

/-- A single validation finding (`Result` in `specs/base.py`).
The Python field `section` is called `sectionId` here (`section` is a Lean
keyword); `module`/`function` are the optional provenance fields, left
`none` by the checks themselves (they are filled in by the
`log_function_call` decorator afterwards). -/
structure Result where
  sectionId : String
  requirement : String
  status : String
  detail : String
  module : Option String
  function : Option String
  deriving DecidableEq

/-- `Result.__post_init__`: constructing a `Result` validates the status
against the closed set FAIL / WARNING / PASS and raises `ValueError`
otherwise. -/
def mkResult (sectionId requirement status detail : String) : Except String Result :=
  if status = "FAIL" ∨ status = "WARNING" ∨ status = "PASS" then
    Except.ok ⟨sectionId, requirement, status, detail, none, none⟩
  else
    Except.error ("Invalid status: " ++ status ++ ". Valid levels are: FAIL, WARNING, PASS.")

/-- `ValidationReport` from `specs/base.py`: a stored `ok` flag (default
`True`) plus the ordered list of results. -/
structure ValidationReport where
  ok : Bool
  results : List Result
  deriving DecidableEq

/-- A freshly constructed `ValidationReport()`. -/
def emptyReport : ValidationReport := ⟨true, []⟩

/-- `ValidationReport.add`: appends a `Result`; it does not touch `ok`.
All call sites inside the checks pass a literal valid status, for which
`Result.__post_init__` provably succeeds, so this total form is used by
the check embeddings. -/
def ValidationReport.add (r : ValidationReport)
    (sectionId requirement status detail : String) : ValidationReport :=
  { r with results := r.results ++ [⟨sectionId, requirement, status, detail, none, none⟩] }

/-- `ValidationReport.add` with the `Result.__post_init__` validation made
explicit: an invalid status raises (propagates out of `add`). -/
def ValidationReport.addE (r : ValidationReport)
    (sectionId requirement status detail : String) : Except String ValidationReport :=
  (mkResult sectionId requirement status detail).map
    fun res => { r with results := r.results ++ [res] }

/-- `ValidationReport.__iadd__`: `self.results.extend(other.results)` then
`self.ok = self.ok and other.ok`, returning the updated report. -/
def ValidationReport.iadd (self other : ValidationReport) : ValidationReport :=
  { ok := self.ok && other.ok, results := self.results ++ other.results }

/-- `ValidationReport.__add__`: a new report with `ok = self.ok and other.ok`
and `results = [*self.results, *other.results]`. -/
def ValidationReport.hadd (self other : ValidationReport) : ValidationReport :=
  { ok := self.ok && other.ok, results := self.results ++ other.results }

/-- `ValidationReport.has_fails`: true iff some result has status FAIL. -/
def ValidationReport.has_fails (r : ValidationReport) : Bool :=
  r.results.any fun res => res.status == "FAIL"

/-- Report expressions: every report reachable from freshly constructed
(`ValidationReport()`) reports by a sequence of `add`, `__iadd__` and
`__add__` operations. -/
inductive ReportExpr where
  | empty : ReportExpr
  | add (e : ReportExpr) (sectionId requirement status detail : String) : ReportExpr
  | iadd (e₁ e₂ : ReportExpr) : ReportExpr
  | hadd (e₁ e₂ : ReportExpr) : ReportExpr

/-- Evaluate a report expression; `add` with an invalid status raises
(`Result.__post_init__`). -/
def ReportExpr.eval : ReportExpr → Except String ValidationReport
  | .empty => Except.ok emptyReport
  | .add e s req st d =>
    match e.eval with
    | Except.error msg => Except.error msg
    | Except.ok r => r.addE s req st d
  | .iadd e₁ e₂ =>
    match e₁.eval, e₂.eval with
    | Except.ok r₁, Except.ok r₂ => Except.ok (r₁.iadd r₂)
    | Except.error msg, _ => Except.error msg
    | _, Except.error msg => Except.error msg
  | .hadd e₁ e₂ =>
    match e₁.eval, e₂.eval with
    | Except.ok r₁, Except.ok r₂ => Except.ok (r₁.hadd r₂)
    | Except.error msg, _ => Except.error msg
    | _, Except.error msg => Except.error msg

/-- `has_fails` is exactly "some finding has status FAIL". -/
theorem has_fails_iff (r : ValidationReport) :
    r.has_fails = true ↔ ∃ res ∈ r.results, res.status = "FAIL" := by
  simp [ValidationReport.has_fails, List.any_eq_true]

/-- C9: constructing a Finding succeeds exactly when the status is in the
closed set PASS / WARNING / FAIL; any other status raises a validation
error at construction time. -/
theorem result_construction_validates_status
    (sectionId requirement status detail : String) :
    (∃ res, mkResult sectionId requirement status detail = Except.ok res) ↔
      (status = "FAIL" ∨ status = "WARNING" ∨ status = "PASS") := by
  unfold mkResult
  by_cases h : status = "FAIL" ∨ status = "WARNING" ∨ status = "PASS"
  · simp [h]
  · simp [h]

/-- C4: merging two reports, in either the in-place `__iadd__` form or the
new-object `__add__` form, ANDs the `ok` flags, concatenates the finding
lists (length is the sum), and keeps A's findings first in order, followed
by B's. -/
theorem merge_semantics (A B : ValidationReport) :
    (A.iadd B).ok = (A.ok && B.ok) ∧
    (A.hadd B).ok = (A.ok && B.ok) ∧
    (A.iadd B).results.length = A.results.length + B.results.length ∧
    (A.hadd B).results.length = A.results.length + B.results.length ∧
    (A.iadd B).results.take A.results.length = A.results ∧
    (A.hadd B).results.take A.results.length = A.results ∧
    (A.iadd B).results.drop A.results.length = B.results ∧
    (A.hadd B).results.drop A.results.length = B.results := by
  refine ⟨rfl, rfl, ?_, ?_, ?_, ?_, ?_, ?_⟩ <;>
    simp [ValidationReport.iadd, ValidationReport.hadd,
      List.take_left, List.drop_left]

/-- C1 counterexample: after `add(section, requirement, "FAIL", detail)` on a
fresh report, `ok` is still `true` even though a FAIL finding is contained
(`add` never updates `ok`), so `ok` does not equal
NOT (some finding has status FAIL). -/
theorem ok_not_derived_after_add_cex :
    (ReportExpr.add ReportExpr.empty "3" "req" "FAIL" "boom").eval.map
        (fun r => (r.ok, r.has_fails)) = Except.ok (true, true) := by
  rfl

/-- C1 (amended): `ok` is not derived from the findings. `add` leaves `ok`
unchanged and the merges AND it, so after any sequence of add and merge
operations starting from freshly constructed reports `ok` is still `true`
(in particular it stays `true` after adding a FAIL finding), while the
FAIL-detection invariant holds for `has_fails()`: it equals
"some contained finding has status FAIL" at every point. -/
theorem report_ok_invariant (e : ReportExpr) (r : ValidationReport)
    (h : e.eval = Except.ok r) :
    r.ok = true ∧ (r.has_fails = true ↔ ∃ res ∈ r.results, res.status = "FAIL") := by
  refine ⟨?_, has_fails_iff r⟩
  induction e generalizing r with
  | empty =>
    simp [ReportExpr.eval, emptyReport] at h
    simp [← h]
  | add e s req st d ih =>
    rw [ReportExpr.eval] at h
    cases he : e.eval with
    | error msg => rw [he] at h; exact absurd h (by simp)
    | ok r' =>
      rw [he] at h
      unfold ValidationReport.addE at h
      cases hm : mkResult s req st d with
      | error msg => rw [hm] at h; exact absurd h (by simp [Except.map])
      | ok res =>
        rw [hm] at h
        simp [Except.map] at h
        have := ih r' he
        rw [← h]
        simpa using this
  | iadd e₁ e₂ ih₁ ih₂ =>
    rw [ReportExpr.eval] at h
    cases h₁ : e₁.eval with
    | error msg => rw [h₁] at h; exact absurd h (by simp)
    | ok r₁ =>
      cases h₂ : e₂.eval with
      | error msg => rw [h₁, h₂] at h; exact absurd h (by simp)
      | ok r₂ =>
        rw [h₁, h₂] at h
        simp at h
        rw [← h]
        simp [ValidationReport.iadd, ih₁ r₁ h₁, ih₂ r₂ h₂]
  | hadd e₁ e₂ ih₁ ih₂ =>
    rw [ReportExpr.eval] at h
    cases h₁ : e₁.eval with
    | error msg => rw [h₁] at h; exact absurd h (by simp)
    | ok r₁ =>
      cases h₂ : e₂.eval with
      | error msg => rw [h₁, h₂] at h; exact absurd h (by simp)
      | ok r₂ =>
        rw [h₁, h₂] at h
        simp at h
        rw [← h]
        simp [ValidationReport.hadd, ih₁ r₁ h₁, ih₂ r₂ h₂]

/-- Witness for C1 (amended) at a concrete add/merge sequence containing a
FAIL finding. -/
theorem report_ok_invariant_witness :
    (⟨true, [⟨"3", "req", "FAIL", "boom", none, none⟩]⟩ : ValidationReport).ok = true ∧
      ((⟨true, [⟨"3", "req", "FAIL", "boom", none, none⟩]⟩ : ValidationReport).has_fails = true ↔
        ∃ res ∈ (⟨true, [⟨"3", "req", "FAIL", "boom", none, none⟩]⟩ : ValidationReport).results,
          res.status = "FAIL") :=
  report_ok_invariant
    (ReportExpr.iadd (ReportExpr.add ReportExpr.empty "3" "req" "FAIL" "boom") ReportExpr.empty)
    ⟨true, [⟨"3", "req", "FAIL", "boom", none, none⟩]⟩ (by rfl)

/-! ## Coordinate rule catalog and matcher (`checks/coords/names.py`) -/

/-- A dynamically typed Python attribute value: a string, or (for the
non-string cases the checks can encounter) an int. -/
inductive AttrVal where
  | str (s : String)
  | int (n : Int)
  deriving DecidableEq

/-- Python `str(value)`. -/
def pyStr : AttrVal → String
  | AttrVal.str s => s
  | AttrVal.int n => toString n

/-- Python `str.strip()` (whitespace from both ends), stated over the
character list so that it evaluates inside the kernel. -/
def pyStrip (s : String) : String :=
  ⟨((s.data.dropWhile Char.isWhitespace).reverse.dropWhile Char.isWhitespace).reverse⟩

/-- Python `str.lower()`. -/
def pyLower (s : String) : String := ⟨s.data.map Char.toLower⟩

/-- Python `str.upper()`. -/
def pyUpper (s : String) : String := ⟨s.data.map Char.toUpper⟩

/-- `_normalize` from `checks/coords/names.py`: `value.strip().lower()`. -/
def _normalize (value : String) : String := pyLower (pyStrip value)

/-- Python `t in s` on strings: `t` is a substring of `s`. -/
def strContainsSub (s t : String) : Bool :=
  s.data.tails.any fun suffix => t.data.isPrefixOf suffix

/-- Case split on an `Option`; encodes Python patterns of the form
"if the value is missing, return the default, else continue with it". -/
def optionCase {α β : Type} (o : Option α) (dflt : β) (k : α → β) : β :=
  match o with
  | none => dflt
  | some v => k v

theorem optionCase_none {α β : Type} (dflt : β) (k : α → β) :
    optionCase none dflt k = dflt := rfl

theorem optionCase_some {α β : Type} (v : α) (dflt : β) (k : α → β) :
    optionCase (some v) dflt k = k v := rfl

/-- Sequence a fallible Boolean step with early exit on `false`; encodes the
Python pattern "if the comparison fails, return False, else keep going"
with exceptions propagating. -/
def exceptAnd (x : Except String Bool) (next : Except String Bool) :
    Except String Bool :=
  match x with
  | Except.error msg => Except.error msg
  | Except.ok true => next
  | Except.ok false => Except.ok false

theorem exceptAnd_error (msg : String) (next : Except String Bool) :
    exceptAnd (Except.error msg) next = Except.error msg := rfl

theorem exceptAnd_true (next : Except String Bool) :
    exceptAnd (Except.ok true) next = next := rfl

theorem exceptAnd_false (next : Except String Bool) :
    exceptAnd (Except.ok false) next = Except.ok false := rfl

/-- Sequence a fallible Boolean step with early exit on `true`; encodes
Python's short-circuiting `any(...)` with exceptions propagating. -/
def exceptOr (x : Except String Bool) (next : Except String Bool) :
    Except String Bool :=
  match x with
  | Except.error msg => Except.error msg
  | Except.ok true => Except.ok true
  | Except.ok false => next

theorem exceptOr_error (msg : String) (next : Except String Bool) :
    exceptOr (Except.error msg) next = Except.error msg := rfl

theorem exceptOr_true (next : Except String Bool) :
    exceptOr (Except.ok true) next = Except.ok true := rfl

theorem exceptOr_false (next : Except String Bool) :
    exceptOr (Except.ok false) next = next := rfl

/-- One attribute/value comparison step of `_matches_rule`: the `axis`
attribute is compared strip-and-uppercased (Python `value.strip().upper()`,
which raises `AttributeError` when the value is not a string); every other
attribute is compared through `_normalize(str(value))`. -/
def attrValueMatches (attr : String) (value : AttrVal) (allowed : List String) :
    Except String Bool :=
  if attr = "axis" then
    match value with
    | AttrVal.str s =>
      Except.ok ((allowed.map fun option => pyUpper (pyStrip option)).contains
        (pyUpper (pyStrip s)))
    | AttrVal.int _ =>
      Except.error "AttributeError: \x27int\x27 object has no attribute \x27strip\x27"
  else
    Except.ok ((allowed.map fun option => _normalize option).contains
      (_normalize (pyStr value)))

/-- `_matches_rule`: all attribute constraints of one rule must hold
(logical AND), iterating the rule entries in order with early exit; the
synthetic `name` attribute stands for the coordinate's own name, and a
missing attribute fails the rule. -/
def matchesRuleE (coordName : String) (attrs : List (String × AttrVal)) :
    List (String × List String) → Except String Bool
  | [] => Except.ok true
  | (attr, allowed) :: rest =>
    optionCase (if attr = "name" then some (AttrVal.str coordName) else attrs.lookup attr)
      (Except.ok false)
      (fun value =>
        exceptAnd (attrValueMatches attr value allowed)
          (matchesRuleE coordName attrs rest))

/-- `any(_matches_rule(coord_name, coord_var, rule) for rule in rules)` in
`_find_coordinates`: logical OR across the rules of a category, evaluated
left to right with short-circuiting. -/
def coordMatchesE (coordName : String) (attrs : List (String × AttrVal)) :
    List (List (String × List String)) → Except String Bool
  | [] => Except.ok false
  | rule :: rest =>
    exceptOr (matchesRuleE coordName attrs rule)
      (coordMatchesE coordName attrs rest)

/-- `_LAT_UNITS`. -/
def _LAT_UNITS : List String :=
  ["degrees_north", "degree_north", "degrees_n", "degree_n", "deg_n"]

/-- `_LON_UNITS`. -/
def _LON_UNITS : List String :=
  ["degrees_east", "degree_east", "degrees_e", "degree_e", "deg_e"]

/-- `_LINEAR_DISTANCE_UNITS`. -/
def _LINEAR_DISTANCE_UNITS : List String :=
  ["m", "meter", "meters", "metre", "metres",
   "km", "kilometer", "kilometers", "kilometre", "kilometres"]

/-- `_COORD_RULES`: the declarative rule catalog, category by category. -/
def _COORD_RULES : List (String × List (List (String × List String))) :=
  [("lat",
    [[("standard_name", ["latitude"])],
     [("axis", ["Y"]), ("units", _LAT_UNITS)],
     [("name", ["lat", "latitude"])]]),
   ("lon",
    [[("standard_name", ["longitude"])],
     [("axis", ["X"]), ("units", _LON_UNITS)],
     [("name", ["lon", "longitude"])]]),
   ("x",
    [[("standard_name", ["projection_x_coordinate"])],
     [("axis", ["X"]), ("units", _LINEAR_DISTANCE_UNITS)],
     [("name", ["x", "easting"])]]),
   ("y",
    [[("standard_name", ["projection_y_coordinate"])],
     [("axis", ["Y"]), ("units", _LINEAR_DISTANCE_UNITS)],
     [("name", ["y", "northing"])]]),
   ("time",
    [[("standard_name", ["time"])],
     [("axis", ["T"])],
     [("name", ["time"])]])]

/-- The rules for category `lat`. -/
def latRules : List (List (String × List String)) :=
  (_COORD_RULES.lookup "lat").getD []

/-- Spec-side restatement of one clause: all attribute constraints hold,
with `axis` compared strip-and-uppercased and every other attribute (and
the synthetic name) compared strip-and-lowercased; stated over
string-valued attributes, to be compared with the source-translated
`matchesRuleE`. -/
def ruleMatchesSpec (coordName : String) (attrs : List (String × String))
    (rule : List (String × List String)) : Bool :=
  rule.all fun p =>
    optionCase (if p.1 = "name" then some coordName else attrs.lookup p.1) false
      (fun v =>
        if p.1 = "axis" then
          (p.2.map fun option => pyUpper (pyStrip option)).contains (pyUpper (pyStrip v))
        else
          (p.2.map fun option => _normalize option).contains (_normalize v))

/-- Spec-side category matcher: OR across the clauses of the category. -/
def categoryMatchesSpec (coordName : String) (attrs : List (String × String))
    (rules : List (List (String × List String))) : Bool :=
  rules.any fun rule => ruleMatchesSpec coordName attrs rule

/-- Wrap string-valued attributes into the dynamically typed model. -/
def toAttrVals (attrs : List (String × String)) : List (String × AttrVal) :=
  attrs.map fun p => (p.1, AttrVal.str p.2)

theorem lookup_toAttrVals (attrs : List (String × String)) (k : String) :
    (toAttrVals attrs).lookup k = (attrs.lookup k).map AttrVal.str := by
  induction attrs with
  | nil => rfl
  | cons p rest ih =>
    simp only [toAttrVals, List.map, List.lookup]
    cases h : (k == p.1) with
    | true => rfl
    | false => exact ih

theorem attrValueMatches_str (attr s : String) (allowed : List String) :
    attrValueMatches attr (AttrVal.str s) allowed =
      Except.ok (if attr = "axis"
        then (allowed.map fun option => pyUpper (pyStrip option)).contains
          (pyUpper (pyStrip s))
        else (allowed.map fun option => _normalize option).contains (_normalize s)) := by
  unfold attrValueMatches
  by_cases h : attr = "axis" <;> simp [h, pyStr]

theorem matchesRuleE_spec (coordName : String) (attrs : List (String × String))
    (rule : List (String × List String)) :
    matchesRuleE coordName (toAttrVals attrs) rule =
      Except.ok (ruleMatchesSpec coordName attrs rule) := by
  induction rule with
  | nil => rfl
  | cons p rest ih =>
    obtain ⟨attr, allowed⟩ := p
    rw [matchesRuleE]
    simp only [ruleMatchesSpec, List.all_cons]
    by_cases hname : attr = "name"
    · subst hname
      rw [if_pos rfl, if_pos rfl, optionCase_some, optionCase_some,
        attrValueMatches_str,
        if_neg (show ¬("name" : String) = "axis" by decide)]
      cases hmem : ((allowed.map fun option => _normalize option).contains
          (_normalize coordName)) with
      | true =>
        rw [exceptAnd_true, Bool.true_and, ih]
        rfl
      | false =>
        rw [exceptAnd_false, Bool.false_and]
    · rw [if_neg hname, if_neg hname, lookup_toAttrVals]
      cases hl : attrs.lookup attr with
      | none =>
        rw [Option.map_none', optionCase_none, optionCase_none, Bool.false_and]
      | some v =>
        rw [Option.map_some', optionCase_some, optionCase_some, attrValueMatches_str]
        by_cases hax : attr = "axis"
        · rw [if_pos hax]
          cases hmem : ((allowed.map fun option => pyUpper (pyStrip option)).contains
              (pyUpper (pyStrip v))) with
          | true =>
            rw [exceptAnd_true, Bool.true_and, ih]
            rfl
          | false =>
            rw [exceptAnd_false, Bool.false_and]
        · rw [if_neg hax]
          cases hmem : ((allowed.map fun option => _normalize option).contains
              (_normalize v)) with
          | true =>
            rw [exceptAnd_true, Bool.true_and, ih]
            rfl
          | false =>
            rw [exceptAnd_false, Bool.false_and]

theorem coordMatchesE_spec (coordName : String) (attrs : List (String × String))
    (rules : List (List (String × List String))) :
    coordMatchesE coordName (toAttrVals attrs) rules =
      Except.ok (categoryMatchesSpec coordName attrs rules) := by
  induction rules with
  | nil => rfl
  | cons rule rest ih =>
    rw [coordMatchesE, matchesRuleE_spec]
    simp only [categoryMatchesSpec, List.any_cons]
    cases h : ruleMatchesSpec coordName attrs rule with
    | true => rw [exceptOr_true, Bool.true_or]
    | false =>
      rw [exceptOr_false, Bool.false_or, ih]
      rfl

/-- C5: rule matching is OR across the clauses of a category and AND within
one clause, with `axis` compared strip-and-uppercased and every other
attribute (and the synthetic name) compared strip-and-lowercased; and
concretely for category `lat`: a coordinate named "latitude" with no
attributes matches, a coordinate with `standard_name="latitude"` matches
regardless of its own name, and a coordinate with `axis="y"` in any case
plus `units="degrees_North"` matches. -/
theorem coord_rule_matching
    : (∀ (coordName : String) (attrs : List (String × String))
          (rules : List (List (String × List String))),
        coordMatchesE coordName (toAttrVals attrs) rules =
          Except.ok (categoryMatchesSpec coordName attrs rules)) ∧
      coordMatchesE "latitude" [] latRules = Except.ok true ∧
      (∀ coordName : String,
        coordMatchesE coordName [("standard_name", AttrVal.str "latitude")] latRules =
          Except.ok true) ∧
      (∀ (coordName axisValue : String), pyUpper (pyStrip axisValue) = "Y" →
        coordMatchesE coordName
          [("axis", AttrVal.str axisValue), ("units", AttrVal.str "degrees_North")]
          latRules = Except.ok true) := by
  refine ⟨coordMatchesE_spec, by rfl, fun coordName => by rfl, ?_⟩
  intro coordName axisValue h
  have h1 : matchesRuleE coordName
      [("axis", AttrVal.str axisValue), ("units", AttrVal.str "degrees_North")]
      [("standard_name", ["latitude"])] = Except.ok false := by rfl
  rw [show latRules = [[("standard_name", ["latitude"])],
        [("axis", ["Y"]), ("units", _LAT_UNITS)],
        [("name", ["lat", "latitude"])]] from rfl]
  rw [coordMatchesE, h1, exceptOr_false, coordMatchesE, matchesRuleE]
  rw [if_neg (show ¬("axis" : String) = "name" by decide)]
  rw [show List.lookup "axis"
      [("axis", AttrVal.str axisValue), ("units", AttrVal.str "degrees_North")] =
      some (AttrVal.str axisValue) from rfl]
  rw [optionCase_some, attrValueMatches_str, if_pos rfl, h]
  rw [show ((["Y"].map fun option => pyUpper (pyStrip option)).contains "Y") = true from rfl]
  rw [exceptAnd_true]
  rfl

/-- Witness for C5: a coordinate with lowercase `axis="y"` and
`units="degrees_North"` matches category `lat`. -/
theorem coord_rule_matching_witness :
    coordMatchesE "c" [("axis", AttrVal.str "y"), ("units", AttrVal.str "degrees_North")]
      latRules = Except.ok true :=
  coord_rule_matching.2.2.2 "c" "y" (by rfl)

/-! ## Dataset handle model -/

/-- A data variable of the dataset handle: its attribute map, the parts of
its `encoding` the compression check reads (the derived codec-name of the
`compressor`/`compressors` entries when present, and the codec-names of the
`filters` pipeline), and the dask chunk tuples of its underlying array
(`none` when the array exposes no `chunks` attribute). -/
structure DataVar where
  attrs : List (String × String)
  encCompressor : Option String
  encCompressors : Option String
  encFilters : List String
  chunks : Option (List (List Nat))
  deriving DecidableEq

/-- The read-only dataset handle (`xr.Dataset`): global attributes
(dynamically typed), coordinates with their attribute maps, data variables,
and the raw int64 values of the `time` coordinate (used by the timestep
analysis when a `time` coordinate is present). -/
structure Dataset where
  attrs : List (String × AttrVal)
  coords : List (String × List (String × AttrVal))
  data_vars : List (String × DataVar)
  time_vals : List Int
  deriving DecidableEq

/-! ## Licensing check (`checks/global_attributes/licensing.py`) -/

/-- Modelled from the spec: the parent package constant `SECTION_ID` of
`checks/global_attributes/__init__.py` is not among the sources; its
concrete string value does not affect any claim. -/
def GLOBAL_ATTRS_SECTION_ID : String := "global_attributes"

/-- `SECTION_ID` of `checks/global_attributes/licensing.py`. -/
def LICENSING_SECTION_ID : String := GLOBAL_ATTRS_SECTION_ID ++ ".2"

/-- Python truthiness of an optional string (`if error:`): false for `None`
and for the empty string. -/
def pyTruthyOptStr : Option String → Bool
  | none => false
  | some s => s != ""

/-- Python `f"{x}"` for an optional string: `None` renders as "None". -/
def pyFormatOptStr : Option String → String
  | none => "None"
  | some s => s

/-- `_normalize_spdx`: parse every value with the external SPDX oracle
(`license_expression.Licensing.parse(..., validate=True).render()`, passed
in as `parse`; `.error` is a raised `ExpressionError`), collecting rendered
values and `(value, message)` errors. The Python set of normalized values
is modelled as a list in insertion order (only membership and
`next(iter(...))` of a singleton are consumed). -/
def _normalize_spdx (parse : String → Except String String) (values : List String) :
    List String × List (String × String) :=
  values.foldl
    (fun acc value =>
      match parse value with
      | Except.error msg => (acc.1, acc.2 ++ [(value, msg)])
      | Except.ok rendered => (acc.1 ++ [rendered], acc.2))
    ([], [])

/-- The optional ". Did you mean: ...?" suffix built from `_suggest_spdx`
suggestions. -/
def suggestText (suggestions : List String) : String :=
  if suggestions.isEmpty then ""
  else ". Did you mean: " ++ String.intercalate ", " suggestions ++ "?"

/-- `any(token in normalized_license.upper() for token in restricted_tokens)`:
the generator is lazy, so with no tokens nothing is evaluated; with at least
one token, `normalized_license.upper()` raises `AttributeError` when the
license failed to normalize (`None`). -/
def isRestrictedE (normalized_license : Option String) (tokens : List String) :
    Except String Bool :=
  match tokens with
  | [] => Except.ok false
  | _ :: _ =>
    match normalized_license with
    | none =>
      Except.error "AttributeError: \x27NoneType\x27 object has no attribute \x27upper\x27"
    | some s => Except.ok (tokens.any fun token => strContainsSub (pyUpper s) token)

/-- `check_license`: the licensing check. The SPDX parse oracle and the
`difflib.get_close_matches` suggestion oracle are external collaborators,
passed in as functions. `ds.attrs["license"].strip()` raises
`AttributeError` when the attribute value is not a string. -/
def check_license (parse : String → Except String String)
    (suggest : String → List String) (ds : Dataset) (require_spdx : Bool)
    (recommended : List String) (warn_on_restricted : List String) :
    Except String ValidationReport :=
  let report := emptyReport
  match ds.attrs.lookup "license" with
  | none =>
    Except.ok (report.add LICENSING_SECTION_ID "License metadata" "FAIL"
      "Missing required \x27license\x27 global attribute")
  | some (AttrVal.int _) =>
    Except.error "AttributeError: \x27int\x27 object has no attribute \x27strip\x27"
  | some (AttrVal.str raw) =>
    let license_id := pyStrip raw
    let parsed := _normalize_spdx parse [license_id]
    let normalized_license := parsed.1.head?
    let error := (parsed.2.map fun e => e.2).head?
    if pyTruthyOptStr error then
      let suggestions := suggest license_id
      let status := if require_spdx then "FAIL" else "WARNING"
      Except.ok (report.add LICENSING_SECTION_ID "License compliance" status
        ("License \x27" ++ license_id ++ "\x27 is not a valid SPDX expression: "
          ++ pyFormatOptStr error ++ suggestText suggestions))
    else
      let normRec := _normalize_spdx parse recommended
      let restricted_tokens := warn_on_restricted.map pyUpper
      let report := normRec.2.foldl
        (fun rep e =>
          rep.add LICENSING_SECTION_ID "License compliance" "WARNING"
            ("Recommended license \x27" ++ e.1 ++ "\x27 is not valid SPDX: " ++ e.2
              ++ suggestText (suggest e.1)))
        report
      let is_recommended := optionCase normalized_license false
        (fun s => normRec.1.contains s)
      match isRestrictedE normalized_license restricted_tokens with
      | Except.error msg => Except.error msg
      | Except.ok is_restricted =>
        if is_recommended then
          Except.ok (report.add LICENSING_SECTION_ID "License compliance" "PASS"
            ("License \x27" ++ pyFormatOptStr normalized_license
              ++ "\x27 is recommended and accepted"))
        else if is_restricted then
          Except.ok (report.add LICENSING_SECTION_ID "License compliance" "WARNING"
            ("License \x27" ++ pyFormatOptStr normalized_license
              ++ "\x27 has restrictions (NC/ND)"))
        else
          Except.ok (report.add LICENSING_SECTION_ID "License compliance" "WARNING"
            ("License \x27" ++ pyFormatOptStr normalized_license
              ++ "\x27 requires case-by-case review"))

/-- C2 counterexample: dataset content can make a check raise. The
licensing check raises `AttributeError` on a dataset whose `license`
global attribute is the int 1 (before any SPDX parsing), and coordinate
rule matching raises on a coordinate whose `axis` attribute is the
int 5. -/
theorem check_evaluate_can_raise_cex :
    check_license (fun s => Except.ok s) (fun _ => [])
        ⟨[("license", AttrVal.int 1)], [], [], []⟩ true [] [] =
      Except.error "AttributeError: \x27int\x27 object has no attribute \x27strip\x27" ∧
    coordMatchesE "c" [("axis", AttrVal.int 5)] latRules =
      Except.error "AttributeError: \x27int\x27 object has no attribute \x27strip\x27" := by
  exact ⟨rfl, rfl⟩

theorem normalize_spdx_single (parse : String → Except String String) (v : String) :
    _normalize_spdx parse [v] =
      (match parse v with
       | Except.error msg => ([], [(v, msg)])
       | Except.ok rendered => ([rendered], [])) := by
  unfold _normalize_spdx
  cases h : parse v <;> simp [h]

theorem isRestrictedE_some_isOk (s : String) (tokens : List String) :
    ∃ b, isRestrictedE (some s) tokens = Except.ok b := by
  cases tokens <;> exact ⟨_, rfl⟩

/-- C2 (amended): a check's evaluate may raise on non-string attribute
values (so "never raises for any dataset content" does not hold as stated),
but for the cases the spec describes as data problems the failure is indeed
converted into a finding: whenever the `license` global attribute is absent
or holds a string, and the SPDX oracle reports parse failures with
non-empty messages, `check_license` returns a report (missing attribute and
parse failure become FAIL/WARNING findings) and never raises. -/
theorem check_license_no_raise_for_string_license
    (parse : String → Except String String) (suggest : String → List String)
    (ds : Dataset) (require_spdx : Bool)
    (recommended warn_on_restricted : List String)
    (hstr : ∀ v, ds.attrs.lookup "license" = some v → ∃ s, v = AttrVal.str s)
    (herr : ∀ s msg, parse s = Except.error msg → msg ≠ "") :
    ∃ rep, check_license parse suggest ds require_spdx recommended warn_on_restricted =
      Except.ok rep := by
  unfold check_license
  cases hlook : ds.attrs.lookup "license" with
  | none => exact ⟨_, rfl⟩
  | some v =>
    obtain ⟨s, hs⟩ := hstr v hlook
    subst hs
    cases hparse : parse (pyStrip s) with
    | error msg =>
      have hmsg : msg ≠ "" := herr _ _ hparse
      have htr : pyTruthyOptStr
          (((_normalize_spdx parse [pyStrip s]).2.map fun e => e.2).head?) = true := by
        rw [normalize_spdx_single, hparse]
        simp [pyTruthyOptStr, hmsg]
      dsimp only
      rw [htr]
      exact ⟨_, rfl⟩
    | ok rendered =>
      have hfa : pyTruthyOptStr
          (((_normalize_spdx parse [pyStrip s]).2.map fun e => e.2).head?) = false := by
        rw [normalize_spdx_single, hparse]
        simp [pyTruthyOptStr]
      dsimp only
      rw [hfa]
      have hhead : (_normalize_spdx parse [pyStrip s]).1.head? = some rendered := by
        rw [normalize_spdx_single, hparse]
        rfl
      rw [hhead]
      obtain ⟨b, hb⟩ := isRestrictedE_some_isOk rendered
        (warn_on_restricted.map pyUpper)
      rw [hb]
      by_cases hrec : (optionCase (some rendered) false
          (fun t => (_normalize_spdx parse recommended).1.contains t)) = true
      · rw [hrec]
        exact ⟨_, rfl⟩
      · rw [Bool.not_eq_true] at hrec
        rw [hrec]
        cases b <;> exact ⟨_, rfl⟩

/-- Witness for C2 (amended): a concrete dataset with a string license that
fails SPDX parsing still yields a report. -/
theorem check_license_no_raise_witness :
    ∃ rep, check_license
        (fun _ => Except.error "bad expression") (fun _ => ["CC-BY-4.0"])
        ⟨[("license", AttrVal.str "not-a-license")], [], [], []⟩
        true ["CC-BY-4.0"] ["NC", "ND"] = Except.ok rep :=
  check_license_no_raise_for_string_license
    (fun _ => Except.error "bad expression") (fun _ => ["CC-BY-4.0"])
    ⟨[("license", AttrVal.str "not-a-license")], [], [], []⟩
    true ["CC-BY-4.0"] ["NC", "ND"]
    (fun v hv => ⟨"not-a-license", by simpa using hv.symm⟩)
    (fun s msg h => by injection h with h2; rw [← h2]; decide)

/-! ## Compression check (`checks/data_vars/compression.py`) -/

/-- Modelled from the spec: the parent package constant `SECTION_ID` of
`checks/data_vars/__init__.py` is not among the sources; its concrete
string value does not affect any claim. -/
def DATA_VARS_SECTION_ID : String := "data_vars"

/-- `SECTION_ID` of `checks/data_vars/compression.py`. -/
def COMPRESSION_SECTION_ID : String := DATA_VARS_SECTION_ID ++ ".2"

/-- The known compressor families tested against filter codec names. -/
def knownCompressorFamilies : List String :=
  ["zlib", "gzip", "bz2", "blosc", "zstd", "lz4", "snappy"]

/-- `get_compressor_name`: the codec name of `encoding["compressor"]` (or
`encoding["compressors"]`; Python `or` takes the first non-None codec
object) lowercased; otherwise the first filter in `encoding["filters"]`
whose lowercased codec name contains a known compressor family; otherwise
the string "none". `encCompressor`/`encCompressors`/the filter entries
model `getattr(obj, "codec_id", obj.__class__.__name__)`. -/
def get_compressor_name (da : DataVar) : String :=
  match (match da.encCompressor with
         | some c => some c
         | none => da.encCompressors) with
  | some comp => pyLower comp
  | none =>
    match da.encFilters.find? (fun f =>
        knownCompressorFamilies.any fun k => strContainsSub (pyLower f) k) with
    | some f => pyLower f
    | none => "none"

/-- The `grid_mapping` attribute values collected over all data variables
(the grid-mapping definition variables to exclude). -/
def grid_mapping_targets (ds : Dataset) : List String :=
  ds.data_vars.filterMap fun p => p.2.attrs.lookup "grid_mapping"

/-- `set(ds.data_vars) - grid_mapping_vars` in `check_compression`,
modelled as an order-preserving filter (the Python set iteration order is
unspecified; no claim depends on the order across variables). -/
def compressionQualifyingVars (ds : Dataset) : List (String × DataVar) :=
  ds.data_vars.filter fun p => !(grid_mapping_targets ds).contains p.1

/-- Python `compressor is None` for `compressor = get_compressor_name(da)`:
`get_compressor_name` always returns a `str` (the string "none" when no
compression is found), so the identity test against `None` is always
false. -/
def pyIsNoneStr (_ : String) : Bool := false

/-- The loop body of `check_compression` for one qualifying data variable,
translated branch by branch (including the unreachable `is None`
branches). -/
def compressionStep (require_compression : Bool) (recommended_compression : String)
    (report : ValidationReport) (p : String × DataVar) : ValidationReport :=
  let data_var := p.1
  let compressor := get_compressor_name p.2
  if require_compression then
    if pyIsNoneStr compressor then
      report.add COMPRESSION_SECTION_ID
        (data_var ++ " array compression for " ++ data_var) "FAIL"
        (data_var ++ " data array does not use compression")
    else if compressor = recommended_compression then
      report.add COMPRESSION_SECTION_ID
        (data_var ++ " array compression for " ++ data_var) "PASS"
        (data_var ++ " array uses recommended compression: " ++ recommended_compression)
    else
      report.add COMPRESSION_SECTION_ID
        (data_var ++ " array compression for " ++ data_var) "WARNING"
        (data_var ++ " array uses compression: " ++ compressor
          ++ ", recommended is " ++ recommended_compression)
  else
    if pyIsNoneStr compressor then
      if require_compression then
        report.add COMPRESSION_SECTION_ID
          (data_var ++ " array compression for " ++ data_var) "FAIL"
          (data_var ++ " data array does not use compression")
      else if compressor = recommended_compression then
        report.add COMPRESSION_SECTION_ID
          (data_var ++ " array compression for " ++ data_var) "PASS"
          (data_var ++ " array uses recommended compression: " ++ recommended_compression)
      else
        report
    else
      report

/-- `check_compression`: fold the loop body over the qualifying data
variables. -/
def check_compression (ds : Dataset) (require_compression : Bool)
    (recommended_compression : String) (allow_coord_algs : List String) :
    ValidationReport :=
  (compressionQualifyingVars ds).foldl
    (compressionStep require_compression recommended_compression) emptyReport

/-- Spec-side description of the single finding emitted per qualifying
variable when compression is required. -/
def compressionFindingRequired (recommended_compression : String)
    (p : String × DataVar) : Result :=
  let data_var := p.1
  let compressor := get_compressor_name p.2
  if compressor = recommended_compression then
    ⟨COMPRESSION_SECTION_ID, data_var ++ " array compression for " ++ data_var,
      "PASS", data_var ++ " array uses recommended compression: " ++ recommended_compression,
      none, none⟩
  else
    ⟨COMPRESSION_SECTION_ID, data_var ++ " array compression for " ++ data_var,
      "WARNING", data_var ++ " array uses compression: " ++ compressor
        ++ ", recommended is " ++ recommended_compression,
      none, none⟩

theorem compressionStep_true (recommended_compression : String)
    (report : ValidationReport) (p : String × DataVar) :
    compressionStep true recommended_compression report p =
      { report with results :=
          report.results ++ [compressionFindingRequired recommended_compression p] } := by
  unfold compressionStep compressionFindingRequired
  by_cases h : get_compressor_name p.2 = recommended_compression <;>
    simp [h, pyIsNoneStr, ValidationReport.add]

theorem compressionStep_false (recommended_compression : String)
    (report : ValidationReport) (p : String × DataVar) :
    compressionStep false recommended_compression report p = report := by
  unfold compressionStep
  simp [pyIsNoneStr]

theorem foldl_add_results {α : Type} (f : α → Result)
    (step : ValidationReport → α → ValidationReport)
    (hstep : ∀ rep x, step rep x = { rep with results := rep.results ++ [f x] })
    (l : List α) (r : ValidationReport) :
    l.foldl step r = { r with results := r.results ++ l.map f } := by
  induction l generalizing r with
  | nil => simp
  | cons x xs ih =>
    rw [List.foldl_cons, hstep, ih]
    simp

theorem foldl_const {α : Type} (step : ValidationReport → α → ValidationReport)
    (hstep : ∀ rep x, step rep x = rep) (l : List α) (r : ValidationReport) :
    l.foldl step r = r := by
  induction l generalizing r with
  | nil => rfl
  | cons x xs ih => rw [List.foldl_cons, hstep, ih]

/-- C3 counterexample: the derived compressor name comes from the FIRST
filter step matching a known family (a Zlib-then-Zstd pipeline yields
"zlib", not "zstd"), and when no compressor at all is found on a variable
with compression required the check emits a WARNING naming "none" rather
than a FAIL (`compressor is None` is never true for the returned `str`). -/
theorem compression_first_filter_and_no_fail_cex :
    get_compressor_name ⟨[], none, none, ["Zlib", "Zstd"], none⟩ = "zlib" ∧
    (check_compression ⟨[], [], [("rr", ⟨[], none, none, [], none⟩)], []⟩
        true "zstd" []).results.map (fun r => (r.status, r.detail)) =
      [("WARNING", "rr array uses compression: none, recommended is zstd")] := by
  exact ⟨rfl, rfl⟩

/-- C3 (amended): when compression is required the check emits exactly one
finding per qualifying (non-grid-mapping) data variable: PASS when the
derived compressor name equals the recommended algorithm and WARNING
(naming the compressor actually found, the string "none" included)
otherwise; the FAIL branch is unreachable because `get_compressor_name`
returns the string "none" rather than `None` when no compression is found,
and the name is derived from the single-codec encoding or, failing that,
from the FIRST filter-pipeline step matching a known compressor family.
When compression is not required no finding is emitted at all. -/
theorem check_compression_spec (ds : Dataset) (recommended_compression : String)
    (allow_coord_algs : List String) :
    check_compression ds true recommended_compression allow_coord_algs =
      ⟨true, (compressionQualifyingVars ds).map
        (compressionFindingRequired recommended_compression)⟩ ∧
    check_compression ds false recommended_compression allow_coord_algs =
      ⟨true, []⟩ ∧
    (∀ p : String × DataVar,
      (compressionFindingRequired recommended_compression p).status =
        if get_compressor_name p.2 = recommended_compression then "PASS"
        else "WARNING") := by
  refine ⟨?_, ?_, ?_⟩
  · unfold check_compression
    rw [foldl_add_results (compressionFindingRequired recommended_compression)
      (compressionStep true recommended_compression)
      (compressionStep_true recommended_compression)]
    rfl
  · unfold check_compression
    rw [foldl_const (compressionStep false recommended_compression)
      (compressionStep_false recommended_compression)]
    rfl
  · intro p
    unfold compressionFindingRequired
    by_cases h : get_compressor_name p.2 = recommended_compression <;> simp [h]

/-! ## Conditional global attributes
(`mlcast_validator/checks/global_attributes/conditional.py`) -/

/-- Modelled from the spec: the parent package constant `SECTION_ID` of
`mlcast_validator/checks/global_attributes/__init__.py` is not among the
sources; its concrete string value does not affect any claim. -/
def MV_GLOBAL_ATTRS_SECTION_ID : String := "mv_global_attributes"

/-- `SECTION_ID` of `mlcast_validator/checks/global_attributes/conditional.py`. -/
def CONDITIONAL_SECTION_ID : String := MV_GLOBAL_ATTRS_SECTION_ID ++ ".1"

/-- `analyze_dataset_timesteps` (from
`checks/coords/variable_timestep.py`; the id-keyed memo cache is dropped,
the function is pure): fewer than two time values means no variable
intervals; otherwise count the distinct consecutive differences of the raw
int64 time values and report variability iff more than one. -/
def analyze_dataset_timesteps (ds : Dataset) : Bool × Nat :=
  let raw := ds.time_vals
  if raw.length < 2 then (false, 0)
  else
    let diffs := (raw.zip raw.tail).map fun p => p.2 - p.1
    let uniqueCount := diffs.dedup.length
    (decide (uniqueCount > 1), uniqueCount)

/-- `_requires_variable_timestep_metadata`: false without a `time`
coordinate, else whether the timesteps are variable. -/
def _requires_variable_timestep_metadata (ds : Dataset) : Bool :=
  if (ds.coords.lookup "time").isNone then false
  else (analyze_dataset_timesteps ds).1

/-- `_requires_future_timestep_metadata`: the source is an unfinished stub
that logs a warning and falls through, returning `None`; `None` is falsy at
the `if is_required:` test, so it behaves as `false`. -/
def _requires_future_timestep_metadata (_ : Dataset) : Bool := false

/-- `CONDITION_FUNCTIONS`: the registry of conditional-attribute
predicates. -/
def CONDITION_FUNCTIONS : List (String × (Dataset → Bool)) :=
  [("consistent_timestep_start", _requires_variable_timestep_metadata),
   ("last_valid_timestep", _requires_future_timestep_metadata)]

/-- The loop of `check_conditional_global_attributes`: for each configured
attribute, an unregistered name raises `NotImplementedError` immediately;
a registered predicate that holds makes the attribute required (PASS when
present, FAIL when absent); a predicate that does not hold emits
nothing. -/
def conditionalGo (ds : Dataset) :
    List String → ValidationReport → Except String ValidationReport
  | [], report => Except.ok report
  | attr :: rest, report =>
    optionCase (CONDITION_FUNCTIONS.lookup attr)
      (Except.error
        ("Conditional attribute check for \x27" ++ attr ++ "\x27 is not implemented."))
      (fun condition_fn =>
        if condition_fn ds then
          if (ds.attrs.lookup attr).isSome then
            conditionalGo ds rest (report.add CONDITIONAL_SECTION_ID
              ("Conditional global attribute \x27" ++ attr ++ "\x27") "PASS"
              ("Global attribute \x27" ++ attr ++ "\x27 is present"))
          else
            conditionalGo ds rest (report.add CONDITIONAL_SECTION_ID
              ("Conditional global attribute \x27" ++ attr ++ "\x27") "FAIL"
              ("Global attribute \x27" ++ attr ++ "\x27 is required but not present"))
        else conditionalGo ds rest report)

/-- `check_conditional_global_attributes`. -/
def check_conditional_global_attributes (ds : Dataset)
    (conditional_attrs : List String) : Except String ValidationReport :=
  conditionalGo ds conditional_attrs emptyReport

/-- Spec-side description of the finding emitted (or not) for one
configured conditional attribute. -/
def conditionalFindingSpec (ds : Dataset) (attr : String) : Option Result :=
  match CONDITION_FUNCTIONS.lookup attr with
  | none => none
  | some p =>
    if p ds then
      some (if (ds.attrs.lookup attr).isSome then
        ⟨CONDITIONAL_SECTION_ID, "Conditional global attribute \x27" ++ attr ++ "\x27",
          "PASS", "Global attribute \x27" ++ attr ++ "\x27 is present", none, none⟩
      else
        ⟨CONDITIONAL_SECTION_ID, "Conditional global attribute \x27" ++ attr ++ "\x27",
          "FAIL", "Global attribute \x27" ++ attr ++ "\x27 is required but not present",
          none, none⟩)
    else none

theorem conditionalGo_ok (ds : Dataset) (attrs : List String)
    (report : ValidationReport)
    (h : ∀ a ∈ attrs, (CONDITION_FUNCTIONS.lookup a).isSome) :
    conditionalGo ds attrs report =
      Except.ok { report with results :=
        report.results ++ attrs.filterMap (conditionalFindingSpec ds) } := by
  induction attrs generalizing report with
  | nil => simp [conditionalGo]
  | cons attr rest ih =>
    have ha := h attr (List.mem_cons_self attr rest)
    obtain ⟨p, hp⟩ := Option.isSome_iff_exists.mp ha
    have hrest : ∀ a ∈ rest, (CONDITION_FUNCTIONS.lookup a).isSome :=
      fun a haa => h a (List.mem_cons_of_mem attr haa)
    rw [conditionalGo, hp, optionCase_some, List.filterMap_cons]
    by_cases hc : p ds = true
    · by_cases hpres : (ds.attrs.lookup attr).isSome = true
      · rw [if_pos hc, if_pos hpres, ih _ hrest]
        simp [conditionalFindingSpec, hp, hc, hpres, ValidationReport.add]
      · rw [Bool.not_eq_true] at hpres
        rw [if_pos hc, hpres]
        rw [if_neg (show ¬(false = true) by simp), ih _ hrest]
        simp [conditionalFindingSpec, hp, hc, hpres, ValidationReport.add]
    · rw [Bool.not_eq_true] at hc
      rw [hc]
      rw [if_neg (show ¬(false = true) by simp), ih _ hrest]
      simp [conditionalFindingSpec, hp, hc]

theorem conditionalGo_error (ds : Dataset) (attrs : List String)
    (report : ValidationReport)
    (h : ∃ a ∈ attrs, CONDITION_FUNCTIONS.lookup a = none) :
    ∃ msg, conditionalGo ds attrs report = Except.error msg := by
  induction attrs generalizing report with
  | nil => simp at h
  | cons attr rest ih =>
    by_cases ha : CONDITION_FUNCTIONS.lookup attr = none
    · exact ⟨_, by rw [conditionalGo, ha, optionCase_none]⟩
    · obtain ⟨p, hp⟩ := Option.ne_none_iff_exists'.mp ha
      have hrest : ∃ a ∈ rest, CONDITION_FUNCTIONS.lookup a = none := by
        obtain ⟨a, hmem, hnone⟩ := h
        rcases List.mem_cons.mp hmem with rfl | hmem'
        · exact absurd hnone ha
        · exact ⟨a, hmem', hnone⟩
      rw [conditionalGo, hp, optionCase_some]
      by_cases hc : p ds = true
      · by_cases hpres : (ds.attrs.lookup attr).isSome = true
        · rw [if_pos hc, if_pos hpres]
          exact ih _ hrest
        · rw [Bool.not_eq_true] at hpres
          rw [if_pos hc, hpres]
          rw [if_neg (show ¬(false = true) by simp)]
          exact ih _ hrest
      · rw [Bool.not_eq_true] at hc
        rw [hc]
        rw [if_neg (show ¬(false = true) by simp)]
        exact ih _ hrest

/-- C6: for each configured conditional attribute, when every configured
name has a registered predicate the check returns exactly the findings
described per attribute (predicate true: FAIL when the global attribute is
absent, PASS when present; predicate false: no finding at all for that
attribute); and when some configured name has no registered predicate the
check raises instead of producing a report. -/
theorem check_conditional_spec (ds : Dataset) (conditional_attrs : List String) :
    ((∀ a ∈ conditional_attrs, (CONDITION_FUNCTIONS.lookup a).isSome) →
      check_conditional_global_attributes ds conditional_attrs =
        Except.ok ⟨true, conditional_attrs.filterMap (conditionalFindingSpec ds)⟩) ∧
    ((∃ a ∈ conditional_attrs, CONDITION_FUNCTIONS.lookup a = none) →
      ∃ msg, check_conditional_global_attributes ds conditional_attrs =
        Except.error msg) := by
  constructor
  · intro h
    unfold check_conditional_global_attributes
    rw [conditionalGo_ok ds conditional_attrs emptyReport h]
    rfl
  · intro h
    exact conditionalGo_error ds conditional_attrs emptyReport h

/-- Witness for C6: a dataset with variable timesteps (time values 0, 10,
30) and no `consistent_timestep_start` attribute gets exactly one FAIL
finding for that configured attribute, and a configured attribute with no
registered predicate makes the check raise. -/
theorem check_conditional_witness :
    check_conditional_global_attributes ⟨[], [("time", [])], [], [0, 10, 30]⟩
        ["consistent_timestep_start"] =
      Except.ok ⟨true,
        [⟨CONDITIONAL_SECTION_ID,
          "Conditional global attribute \x27consistent_timestep_start\x27", "FAIL",
          "Global attribute \x27consistent_timestep_start\x27 is required but not present",
          none, none⟩]⟩ ∧
    (∃ msg, check_conditional_global_attributes ⟨[], [("time", [])], [], [0, 10, 30]⟩
        ["bogus"] = Except.error msg) :=
  ⟨((check_conditional_spec ⟨[], [("time", [])], [], [0, 10, 30]⟩
      ["consistent_timestep_start"]).1 (by decide)).trans (by rfl),
   (check_conditional_spec ⟨[], [("time", [])], [], [0, 10, 30]⟩ ["bogus"]).2
     ⟨"bogus", by simp, by rfl⟩⟩

/-! ## Naming and units check (`checks/data_vars/naming.py`) -/

/-- `SECTION_ID` of `checks/data_vars/naming.py`. -/
def NAMING_SECTION_ID : String := DATA_VARS_SECTION_ID ++ ".4"

/-- One `_CF_RULES` entry: acceptable variable names, permissible units,
and the canonical CF unit for a physical quantity. -/
structure CFRule where
  names : List String
  units : List String
  canonical_unit : String
  deriving DecidableEq

/-- `_CF_RULES`, keyed by CF `standard_name`. -/
def _CF_RULES : List (String × CFRule) :=
  [("rainfall_flux",
    ⟨["mmh", "rr", "rain_rate", "rainfall_rate", "rainfall_flux"],
     ["kg m-2 h-1", "mm h-1", "mm/h"], "kg m-2 h-1"⟩),
   ("precipitation_flux",
    ⟨["tprate", "prate"], ["kg m-2 h-1", "mm h-1", "mm/h"], "kg m-2 h-1"⟩),
   ("equivalent_reflectivity_factor",
    ⟨["equivalent_reflectivity_factor", "dbz", "rare"], ["dBZ"], "dBZ"⟩),
   ("precipitation_amount",
    ⟨["rainfall_amount", "mm", "precipitation_amount", "tp"], ["kg m-2", "mm"],
     "kg m-2"⟩),
   ("rainfall_amount",
    ⟨["rainfall_amount", "mm", "precipitation_amount", "tp"], ["kg m-2", "mm"],
     "kg m-2"⟩)]

/-- All variable names of the dataset (`ds.variables`: coordinates plus
data variables). -/
def dsVariables (ds : Dataset) : List String :=
  ds.coords.map (fun p => p.1) ++ ds.data_vars.map (fun p => p.1)

/-- `grid_mapping_definitions` from `checks/tooling/__init__.py`: names of
variables acting as CF grid-mapping definitions (a truthy, i.e. non-empty,
`grid_mapping` attribute value that names an existing variable). -/
def grid_mapping_definitions (ds : Dataset) : List String :=
  ds.data_vars.filterMap fun p =>
    match p.2.attrs.lookup "grid_mapping" with
    | some mapping_name =>
      if mapping_name != "" && (dsVariables ds).contains mapping_name then
        some mapping_name
      else none
    | none => none

/-- `iter_data_vars` from `checks/tooling/__init__.py` (with its default
`require_grid_mapping=False`): yield data variables in dataset order,
skipping grid-mapping definition variables. The chunking check imports an
identically-named helper from a `data_vars_filter` module that is not among
the sources; this repository definition stands for it. -/
def iter_data_vars (ds : Dataset) : List (String × DataVar) :=
  ds.data_vars.filter fun p => !(grid_mapping_definitions ds).contains p.1

/-- The per-variable body of the `check_names_and_attrs` loop: the findings
appended for one data variable (FAIL on the first missing required
attribute with no further checks, then standard-name, variable-name and
units validation). Python joins the allowed-units set in its iteration
order; modelled as the rule-table order. -/
def namingVarFindings (allowed_lower : List String) (p : String × DataVar) :
    List Result :=
  let var_name := p.1
  let attrs := p.2.attrs
  match (["long_name", "standard_name", "units"].find? fun attr =>
      (attrs.lookup attr).isNone) with
  | some missing_attr =>
    [⟨NAMING_SECTION_ID, "Required attribute \x27" ++ missing_attr ++ "\x27", "FAIL",
      "\x27" ++ missing_attr ++ "\x27 attribute is missing on data variable \x27"
        ++ var_name ++ "\x27.", none, none⟩]
  | none =>
    let standard_name := pyLower (pyStrip ((attrs.lookup "standard_name").getD ""))
    let units := pyStrip ((attrs.lookup "units").getD "")
    let canonical_name := pyLower (pyStrip var_name)
    if !(allowed_lower.contains standard_name) then
      [⟨NAMING_SECTION_ID, "Standard name validation", "FAIL",
        "Standard name \x27" ++ standard_name
          ++ "\x27 is not permitted for this specification.", none, none⟩]
    else
      match _CF_RULES.lookup standard_name with
      | none =>
        [⟨NAMING_SECTION_ID, "Standard name validation", "FAIL",
          "Standard name \x27" ++ standard_name
            ++ "\x27 is not recognized for supported physical variables.", none, none⟩]
      | some matched_rule =>
        let nameFinding :=
          if !((matched_rule.names.map pyLower).contains canonical_name) then
            (⟨NAMING_SECTION_ID, "Variable name validation", "FAIL",
              "Variable name \x27" ++ var_name ++ "\x27 is not allowed for standard_name \x27"
                ++ standard_name ++ "\x27. Allowed names: "
                ++ String.intercalate ", " matched_rule.names ++ ".", none, none⟩ : Result)
          else
            ⟨NAMING_SECTION_ID, "Variable name validation", "PASS",
              "Variable name \x27" ++ var_name
                ++ "\x27 matches the expected CF/ECMWF list.", none, none⟩
        let unitsFinding :=
          if !(matched_rule.units.contains units) then
            (⟨NAMING_SECTION_ID, "Units validation", "FAIL",
              "Units \x27" ++ units ++ "\x27 are not allowed for standard_name \x27"
                ++ standard_name ++ "\x27. Allowed units: "
                ++ String.intercalate ", " matched_rule.units
                ++ " (canonical: " ++ matched_rule.canonical_unit ++ ").",
              none, none⟩ : Result)
          else if units ≠ matched_rule.canonical_unit then
            ⟨NAMING_SECTION_ID, "Units validation", "WARNING",
              "Units \x27" ++ units ++ "\x27 are permitted but the CF canonical unit is \x27"
                ++ matched_rule.canonical_unit ++ "\x27.", none, none⟩
          else
            ⟨NAMING_SECTION_ID, "Units validation", "PASS",
              "Units \x27" ++ units ++ "\x27 match the CF canonical unit.", none, none⟩
        [nameFinding, unitsFinding]

/-- `check_names_and_attrs`: every configured standard name must have a
rule (`NotImplementedError` otherwise, before any variable is inspected),
then the per-variable findings are collected over `iter_data_vars`. -/
def check_names_and_attrs (ds : Dataset) (allowed_standard_names : List String) :
    Except String ValidationReport :=
  let allowed_lower := allowed_standard_names.map pyLower
  match allowed_lower.find? (fun spec_name => (_CF_RULES.lookup spec_name).isNone) with
  | some spec_name =>
    Except.error ("NotImplementedError: No naming rule implemented for standard_name \x27"
      ++ spec_name ++ "\x27")
  | none =>
    Except.ok ⟨true, ((iter_data_vars ds).map (namingVarFindings allowed_lower)).flatten⟩

/-- C7: the data variable `rr` with `standard_name="rainfall_flux"` and
`units="mm/h"` gets a PASS for the name check and a WARNING for the units
check whose detail names the canonical unit "kg m-2 h-1"; the same variable
with `units="in/h"` gets a FAIL for the units check. -/
theorem naming_rr_example :
    (check_names_and_attrs
        ⟨[], [], [("rr", ⟨[("long_name", "Rain rate"),
          ("standard_name", "rainfall_flux"), ("units", "mm/h")],
          none, none, [], none⟩)], []⟩ ["rainfall_flux"]).map
        (fun rep => rep.results.map fun r => (r.requirement, r.status)) =
      Except.ok [("Variable name validation", "PASS"), ("Units validation", "WARNING")] ∧
    (check_names_and_attrs
        ⟨[], [], [("rr", ⟨[("long_name", "Rain rate"),
          ("standard_name", "rainfall_flux"), ("units", "mm/h")],
          none, none, [], none⟩)], []⟩ ["rainfall_flux"]).map
        (fun rep => rep.results.map Result.detail) =
      Except.ok ["Variable name \x27rr\x27 matches the expected CF/ECMWF list.",
        "Units \x27mm/h\x27 are permitted but the CF canonical unit is \x27kg m-2 h-1\x27."] ∧
    (check_names_and_attrs
        ⟨[], [], [("rr", ⟨[("long_name", "Rain rate"),
          ("standard_name", "rainfall_flux"), ("units", "in/h")],
          none, none, [], none⟩)], []⟩ ["rainfall_flux"]).map
        (fun rep => rep.results.map fun r => (r.requirement, r.status)) =
      Except.ok [("Variable name validation", "PASS"), ("Units validation", "FAIL")] := by
  exact ⟨rfl, rfl, rfl⟩

/-! ## Chunking check (`checks/data_vars/chunking.py`) -/

/-- `SECTION_ID` of `checks/data_vars/chunking.py`. -/
def CHUNKING_SECTION_ID : String := DATA_VARS_SECTION_ID ++ ".1"

/-- Python `repr` of a tuple of ints, as interpolated by the f-string for
`chunks[0][:5]`. -/
def pyTupleRepr (l : List Nat) : String :=
  match l with
  | [] => "()"
  | [x] => "(" ++ toString x ++ ",)"
  | _ => "(" ++ String.intercalate ", " (l.map toString) ++ ")"

/-- The body of the `check_chunking_strategy` loop for one data variable:
exactly one finding per variable (or a raised `IndexError` when the chunk
tuple is empty, since the FAIL branch indexes `chunks[0]`). A variable
without a `chunks` attribute (not a dask array) gets a WARNING. -/
def chunkingFindingE (time_chunksize : Nat) (p : String × DataVar) :
    Except String Result :=
  let data_var := p.1
  match p.2.chunks with
  | some chunks =>
    if decide (1 ≤ chunks.length) && (chunks.headD []).all (fun c => c == time_chunksize) then
      Except.ok ⟨CHUNKING_SECTION_ID, "Chunking strategy for " ++ data_var, "PASS",
        "Correct chunking: " ++ toString time_chunksize ++ " chunk(s) per timestep",
        none, none⟩
    else
      match chunks with
      | [] => Except.error "IndexError: tuple index out of range"
      | c0 :: _ =>
        Except.ok ⟨CHUNKING_SECTION_ID, "Chunking strategy for " ++ data_var, "FAIL",
          "Time dimension must be chunked as " ++ toString time_chunksize
            ++ " per timestep. Found: " ++ pyTupleRepr (c0.take 5) ++ "...",
          none, none⟩
  | none =>
    Except.ok ⟨CHUNKING_SECTION_ID, "Chunking strategy for " ++ data_var, "WARNING",
      "Data not chunked (not a dask array)", none, none⟩

/-- Collect fallible per-element results, stopping at the first raised
exception (the loop aborts when an iteration raises). -/
def mapE {α β : Type} (f : α → Except String β) : List α → Except String (List β)
  | [] => Except.ok []
  | x :: xs =>
    match f x with
    | Except.error msg => Except.error msg
    | Except.ok y => (mapE f xs).map (fun ys => y :: ys)

/-- The `check_chunking_strategy` loop over the data variables, appending
one finding per variable. -/
def chunkingGo (time_chunksize : Nat) :
    List (String × DataVar) → ValidationReport → Except String ValidationReport
  | [], report => Except.ok report
  | p :: rest, report =>
    match chunkingFindingE time_chunksize p with
    | Except.error msg => Except.error msg
    | Except.ok res =>
      chunkingGo time_chunksize rest { report with results := report.results ++ [res] }

/-- `check_chunking_strategy`. -/
def check_chunking_strategy (ds : Dataset) (time_chunksize : Nat) :
    Except String ValidationReport :=
  chunkingGo time_chunksize (iter_data_vars ds) emptyReport

theorem chunkingGo_ok (time_chunksize : Nat) (l : List (String × DataVar))
    (report : ValidationReport) :
    chunkingGo time_chunksize l report =
      (mapE (chunkingFindingE time_chunksize) l).map
        (fun rs => { report with results := report.results ++ rs }) := by
  induction l generalizing report with
  | nil => simp [chunkingGo, mapE, Except.map]
  | cons p rest ih =>
    rw [chunkingGo, mapE]
    cases hf : chunkingFindingE time_chunksize p with
    | error msg => rfl
    | ok res =>
      dsimp only
      rw [ih]
      cases hm : mapE (chunkingFindingE time_chunksize) rest with
      | error msg => rfl
      | ok rs => simp [Except.map]

/-- C8: the chunking check is the per-variable finding collected over the
qualifying variables; for a variable with chunk information whose first
chunk-size sequence exists, the finding is PASS when every entry of that
first sequence equals the configured chunk length and FAIL otherwise, the
FAIL detail naming only the first five chunk sizes; concretely time chunk
sizes [1,1,1] against required size 1 give PASS and [1,1,2] give FAIL; and
the FAIL detail depends only on the first five entries, never on the full
sequence. -/
theorem chunking_check_spec :
    (∀ (ds : Dataset) (n : Nat),
      check_chunking_strategy ds n =
        (mapE (chunkingFindingE n) (iter_data_vars ds)).map
          (fun rs => ⟨true, rs⟩)) ∧
    (∀ (n : Nat) (name : String) (v : DataVar) (c0 : List Nat) (cs : List (List Nat)),
      v.chunks = some (c0 :: cs) →
        chunkingFindingE n (name, v) =
          Except.ok ⟨CHUNKING_SECTION_ID, "Chunking strategy for " ++ name,
            (if c0.all (fun c => c == n) then "PASS" else "FAIL"),
            (if c0.all (fun c => c == n) then
              "Correct chunking: " ++ toString n ++ " chunk(s) per timestep"
             else
              "Time dimension must be chunked as " ++ toString n
                ++ " per timestep. Found: " ++ pyTupleRepr (c0.take 5) ++ "..."),
            none, none⟩) ∧
    (chunkingFindingE 1 ("var", ⟨[], none, none, [], some [[1, 1, 1]]⟩)).map
        Result.status = Except.ok "PASS" ∧
    (chunkingFindingE 1 ("var", ⟨[], none, none, [], some [[1, 1, 2]]⟩)).map
        Result.status = Except.ok "FAIL" ∧
    (∀ (n : Nat) (name : String) (c0 c0' : List Nat) (cs cs' : List (List Nat)),
      c0.take 5 = c0'.take 5 →
      (c0.all fun c => c == n) = false → (c0'.all fun c => c == n) = false →
      chunkingFindingE n (name, ⟨[], none, none, [], some (c0 :: cs)⟩) =
        chunkingFindingE n (name, ⟨[], none, none, [], some (c0' :: cs')⟩)) := by
  have hfind : ∀ (n : Nat) (name : String) (v : DataVar) (c0 : List Nat)
      (cs : List (List Nat)), v.chunks = some (c0 :: cs) →
      chunkingFindingE n (name, v) =
        Except.ok ⟨CHUNKING_SECTION_ID, "Chunking strategy for " ++ name,
          (if c0.all (fun c => c == n) then "PASS" else "FAIL"),
          (if c0.all (fun c => c == n) then
            "Correct chunking: " ++ toString n ++ " chunk(s) per timestep"
           else
            "Time dimension must be chunked as " ++ toString n
              ++ " per timestep. Found: " ++ pyTupleRepr (c0.take 5) ++ "..."),
          none, none⟩ := by
    intro n name v c0 cs hch
    unfold chunkingFindingE
    rw [hch]
    dsimp only
    rw [List.headD_cons]
    have hlen : decide (1 ≤ (c0 :: cs).length) = true := by simp
    cases hall : c0.all (fun c => c == n) <;> rw [hlen] <;> rfl
  refine ⟨?_, hfind, by rfl, by rfl, ?_⟩
  · intro ds n
    unfold check_chunking_strategy
    rw [chunkingGo_ok]
    rfl
  · intro n name c0 c0' cs cs' htake hall hall'
    rw [hfind n name _ c0 cs rfl, hfind n name _ c0' cs' rfl, hall, hall', htake]

/-- Witness for C8: time chunk sizes [1,1,2] against required size 1 give a
FAIL finding whose detail shows (1, 1, 2); and two long chunk sequences
agreeing on their first five entries produce identical FAIL findings. -/
theorem chunking_check_witness :
    chunkingFindingE 1 ("var", ⟨[], none, none, [], some [[1, 1, 2]]⟩) =
      Except.ok ⟨CHUNKING_SECTION_ID, "Chunking strategy for var", "FAIL",
        "Time dimension must be chunked as 1 per timestep. Found: (1, 1, 2)...",
        none, none⟩ ∧
    chunkingFindingE 1 ("var", ⟨[], none, none, [], some [[1, 1, 2, 3, 4, 5, 6]]⟩) =
      chunkingFindingE 1 ("var", ⟨[], none, none, [], some [[1, 1, 2, 3, 4, 9, 9]]⟩) :=
  ⟨(chunking_check_spec.2.1 1 "var" ⟨[], none, none, [], some [[1, 1, 2]]⟩
      [1, 1, 2] [] rfl).trans (by rfl),
   chunking_check_spec.2.2.2.2 1 "var" [1, 1, 2, 3, 4, 5, 6] [1, 1, 2, 3, 4, 9, 9]
     [] [] (by rfl) (by rfl) (by rfl)⟩

theorem mapE_all_warning (n : Nat) (l : List (String × DataVar))
    (h : ∀ p ∈ l, p.2.chunks = none) :
    mapE (chunkingFindingE n) l =
      Except.ok (l.map fun p =>
        ⟨CHUNKING_SECTION_ID, "Chunking strategy for " ++ p.1, "WARNING",
          "Data not chunked (not a dask array)", none, none⟩) := by
  induction l with
  | nil => rfl
  | cons p rest ih =>
    have hp := h p (List.mem_cons_self p rest)
    have hf : chunkingFindingE n p =
        Except.ok ⟨CHUNKING_SECTION_ID, "Chunking strategy for " ++ p.1, "WARNING",
          "Data not chunked (not a dask array)", none, none⟩ := by
      unfold chunkingFindingE
      rw [hp]
    rw [mapE, hf, ih (fun q hq => h q (List.mem_cons_of_mem p hq))]
    simp [Except.map]

/-- C10: a qualifying data variable whose array exposes no chunk
information gets exactly one WARNING finding ("Data not chunked"), never a
FAIL; a dataset whose qualifying variables are all unchunked therefore
yields a report with one finding per variable and `has_fails() = false`. -/
theorem chunking_unchunked_warning :
    (∀ (n : Nat) (name : String) (v : DataVar), v.chunks = none →
      chunkingFindingE n (name, v) =
        Except.ok ⟨CHUNKING_SECTION_ID, "Chunking strategy for " ++ name, "WARNING",
          "Data not chunked (not a dask array)", none, none⟩) ∧
    (∀ (ds : Dataset) (n : Nat),
      (∀ p ∈ iter_data_vars ds, p.2.chunks = none) →
      ∃ rep, check_chunking_strategy ds n = Except.ok rep ∧
        rep.has_fails = false ∧
        rep.results.length = (iter_data_vars ds).length) := by
  constructor
  · intro n name v h
    unfold chunkingFindingE
    rw [h]
  · intro ds n h
    unfold check_chunking_strategy
    rw [chunkingGo_ok, mapE_all_warning n _ h]
    refine ⟨_, rfl, ?_, ?_⟩
    · simp [ValidationReport.has_fails, emptyReport, Except.map, List.any_map,
        Function.comp]
      intro x n1 v1 hmem hx
      subst hx
      simp
    · simp [emptyReport, Except.map]

/-- Witness for C10: a dataset with a single unchunked data variable gets
one WARNING finding and no FAIL. -/
theorem chunking_unchunked_witness :
    chunkingFindingE 1 ("rr", ⟨[], none, none, [], none⟩) =
      Except.ok ⟨CHUNKING_SECTION_ID, "Chunking strategy for rr", "WARNING",
        "Data not chunked (not a dask array)", none, none⟩ ∧
    (∃ rep, check_chunking_strategy
        ⟨[], [], [("rr", ⟨[], none, none, [], none⟩)], []⟩ 1 = Except.ok rep ∧
      rep.has_fails = false ∧
      rep.results.length =
        (iter_data_vars ⟨[], [], [("rr", ⟨[], none, none, [], none⟩)], []⟩).length) :=
  ⟨chunking_unchunked_warning.1 1 "rr" ⟨[], none, none, [], none⟩ rfl,
   chunking_unchunked_warning.2 ⟨[], [], [("rr", ⟨[], none, none, [], none⟩)], []⟩ 1
     (by decide)⟩

end Mlcast
